import Mathlib

/-!
Verification of the NES 6502 emulator repository: a shallow embedding of the
decode table (src/nes/isa.py), the memory bus (src/nes/bus.py), the register
file (src/nes/register.py), the addressing-mode resolver
(src/nes/address_mode_selector.py), the instruction executor
(src/nes/instruction_selector.py) and the CPU engine (src/nes/olc6502.py),
together with theorems settling the spec's claims about them.

Machine integers are embedded as `Nat` with explicit wrapping: registers
`a`, `x`, `y`, `stkp`, `status` are bytes (mod 256 where the source wraps),
`pc`, `addr_abs`, `addr_rel` are 16-bit words (mod 65536).  RAM is a function
`Nat → Nat` whose cells hold bytes (the numpy array has dtype uint8).
Python exceptions are embedded as `Except`, with the error value carrying
the state as it stood when the exception was raised (a raised exception in
the source does not roll back mutations already performed).
-/

/-- Addressing-mode catalog, transcribed from src/address_mode.py
(the module nes/address_mode.py imported by the nes package is not present
under src/, but the top-level src/address_mode.py defines the identical
closed 12-variant enumeration). -/
inductive AddressingMode
  | IMP | IMM | ZP0 | ZPX | ZPY | REL | ABS | ABX | ABY | IND | IZX | IZY
deriving DecidableEq

/-- Modelled from the spec: the mnemonic catalog nes/opcodes.py (class
Opcodes) is not present under src/; spec section 3 lists the 56 legal
operation names plus the JAM sentinel, and the instruction executor in
src/nes/instruction_selector.py defines one handler per legal name. -/
inductive Opcodes
  | ADC | AND | ASL | BCC | BCS | BEQ | BIT | BMI | BNE | BPL | BRK | BVC | BVS
  | CLC | CLD | CLI | CLV | CMP | CPX | CPY | DEC | DEX | DEY | EOR | INC | INX
  | INY | JMP | JSR | LDA | LDX | LDY | LSR | NOP | ORA | PHA | PHP | PLA | PLP
  | ROL | ROR | RTI | RTS | SBC | SEC | SED | SEI | STA | STX | STY | TAX | TAY
  | TSX | TXA | TXS | TYA
  | JAM
deriving DecidableEq

/-- Status-flag catalog, transcribed from src/flags.py (the module
nes/flags.py imported by the nes package is not present under src/, but the
top-level src/flags.py defines the identical bitmask enumeration). -/
inductive Flags
  | C | Z | I | D | B | U | V | N
deriving DecidableEq

/-- The bit mask of each flag, from src/flags.py. -/
def Flags.value : Flags → Nat
  | .C => 0x01
  | .Z => 0x02
  | .I => 0x04
  | .D => 0x08
  | .B => 0x10
  | .U => 0x20
  | .V => 0x40
  | .N => 0x80

/-- A decode-table entry, from the Instruction dataclass in src/nes/isa.py:
mnemonic, addressing mode, base cycle count, instruction length in bytes. -/
structure Instruction where
  opcode : Opcodes
  addr_mode : AddressingMode
  cycles : Nat
  size : Nat
deriving DecidableEq
/-- Row 0x00–0x0F of the source decode table. -/
def tableRow0 : List Instruction := [
  ⟨.BRK, .IMM, 7, 1⟩, ⟨.ORA, .IZX, 6, 2⟩, ⟨.JAM, .IMP, 2, 0⟩, ⟨.JAM, .IMP, 8, 0⟩,
  ⟨.JAM, .IMP, 3, 0⟩, ⟨.ORA, .ZP0, 3, 2⟩, ⟨.ASL, .ZP0, 5, 2⟩, ⟨.JAM, .IMP, 5, 0⟩,
  ⟨.PHP, .IMP, 3, 1⟩, ⟨.ORA, .IMM, 2, 2⟩, ⟨.ASL, .IMP, 2, 2⟩, ⟨.JAM, .IMP, 2, 0⟩,
  ⟨.JAM, .IMP, 4, 0⟩, ⟨.ORA, .ABS, 4, 3⟩, ⟨.ASL, .ABS, 6, 3⟩, ⟨.JAM, .IMP, 6, 0⟩]

/-- Row 0x10–0x1F of the source decode table. -/
def tableRow1 : List Instruction := [
  ⟨.BPL, .REL, 2, 2⟩, ⟨.ORA, .IZY, 5, 2⟩, ⟨.JAM, .IMP, 2, 0⟩, ⟨.JAM, .IMP, 8, 0⟩,
  ⟨.JAM, .IMP, 4, 0⟩, ⟨.ORA, .ZPX, 4, 2⟩, ⟨.ASL, .ZPX, 6, 2⟩, ⟨.JAM, .IMP, 6, 0⟩,
  ⟨.CLC, .IMP, 2, 1⟩, ⟨.ORA, .ABY, 4, 3⟩, ⟨.JAM, .IMP, 2, 0⟩, ⟨.JAM, .IMP, 7, 0⟩,
  ⟨.JAM, .IMP, 4, 0⟩, ⟨.ORA, .ABX, 4, 3⟩, ⟨.ASL, .ABX, 7, 3⟩, ⟨.JAM, .IMP, 7, 0⟩]

/-- Row 0x20–0x2F of the source decode table. -/
def tableRow2 : List Instruction := [
  ⟨.JSR, .ABS, 6, 3⟩, ⟨.AND, .IZX, 6, 2⟩, ⟨.JAM, .IMP, 2, 0⟩, ⟨.JAM, .IMP, 8, 0⟩,
  ⟨.BIT, .ZP0, 3, 2⟩, ⟨.AND, .ZP0, 3, 2⟩, ⟨.ROL, .ZP0, 5, 2⟩, ⟨.JAM, .IMP, 5, 0⟩,
  ⟨.PLP, .IMP, 4, 1⟩, ⟨.AND, .IMM, 2, 2⟩, ⟨.ROL, .IMP, 2, 1⟩, ⟨.JAM, .IMP, 2, 0⟩,
  ⟨.BIT, .ABS, 4, 3⟩, ⟨.AND, .ABS, 4, 3⟩, ⟨.ROL, .ABS, 6, 3⟩, ⟨.JAM, .IMP, 6, 0⟩]

/-- Row 0x30–0x3F of the source decode table. -/
def tableRow3 : List Instruction := [
  ⟨.BMI, .REL, 2, 2⟩, ⟨.AND, .IZY, 5, 2⟩, ⟨.JAM, .IMP, 2, 0⟩, ⟨.JAM, .IMP, 8, 0⟩,
  ⟨.JAM, .IMP, 4, 0⟩, ⟨.AND, .ZPX, 4, 2⟩, ⟨.ROL, .ZPX, 6, 2⟩, ⟨.JAM, .IMP, 6, 0⟩,
  ⟨.SEC, .IMP, 2, 1⟩, ⟨.AND, .ABY, 4, 3⟩, ⟨.JAM, .IMP, 2, 0⟩, ⟨.JAM, .IMP, 7, 0⟩,
  ⟨.JAM, .IMP, 4, 0⟩, ⟨.AND, .ABX, 4, 3⟩, ⟨.ROL, .ABX, 7, 3⟩, ⟨.JAM, .IMP, 7, 0⟩]

/-- Row 0x40–0x4F of the source decode table. -/
def tableRow4 : List Instruction := [
  ⟨.RTI, .IMP, 6, 1⟩, ⟨.EOR, .IZX, 6, 2⟩, ⟨.JAM, .IMP, 2, 0⟩, ⟨.JAM, .IMP, 8, 0⟩,
  ⟨.JAM, .IMP, 3, 0⟩, ⟨.EOR, .ZP0, 3, 2⟩, ⟨.LSR, .ZP0, 5, 2⟩, ⟨.JAM, .IMP, 5, 0⟩,
  ⟨.PHA, .IMP, 3, 1⟩, ⟨.EOR, .IMM, 2, 2⟩, ⟨.LSR, .IMP, 2, 1⟩, ⟨.JAM, .IMP, 2, 0⟩,
  ⟨.JMP, .ABS, 3, 3⟩, ⟨.EOR, .ABS, 4, 3⟩, ⟨.LSR, .ABS, 6, 3⟩, ⟨.JAM, .IMP, 6, 0⟩]

/-- Row 0x50–0x5F of the source decode table. -/
def tableRow5 : List Instruction := [
  ⟨.BVC, .REL, 2, 2⟩, ⟨.EOR, .IZY, 5, 2⟩, ⟨.JAM, .IMP, 2, 0⟩, ⟨.JAM, .IMP, 8, 0⟩,
  ⟨.JAM, .IMP, 4, 0⟩, ⟨.EOR, .ZPX, 4, 2⟩, ⟨.LSR, .ZPX, 6, 2⟩, ⟨.JAM, .IMP, 6, 0⟩,
  ⟨.CLI, .IMP, 2, 1⟩, ⟨.EOR, .ABY, 4, 3⟩, ⟨.JAM, .IMP, 2, 0⟩, ⟨.JAM, .IMP, 7, 0⟩,
  ⟨.JAM, .IMP, 4, 0⟩, ⟨.EOR, .ABX, 4, 3⟩, ⟨.LSR, .ABX, 7, 3⟩, ⟨.JAM, .IMP, 7, 0⟩]

/-- Row 0x60–0x6F of the source decode table. -/
def tableRow6 : List Instruction := [
  ⟨.RTS, .IMP, 6, 1⟩, ⟨.ADC, .IZX, 6, 2⟩, ⟨.JAM, .IMP, 2, 0⟩, ⟨.JAM, .IMP, 8, 0⟩,
  ⟨.JAM, .IMP, 3, 0⟩, ⟨.ADC, .ZP0, 3, 2⟩, ⟨.ROR, .ZP0, 5, 2⟩, ⟨.JAM, .IMP, 5, 0⟩,
  ⟨.PLA, .IMP, 4, 1⟩, ⟨.ADC, .IMM, 2, 2⟩, ⟨.ROR, .IMP, 2, 1⟩, ⟨.JAM, .IMP, 2, 0⟩,
  ⟨.JMP, .IND, 5, 3⟩, ⟨.ADC, .ABS, 4, 3⟩, ⟨.ROR, .ABS, 6, 3⟩, ⟨.JAM, .IMP, 6, 0⟩]

/-- Row 0x70–0x7F of the source decode table. -/
def tableRow7 : List Instruction := [
  ⟨.BVS, .REL, 2, 2⟩, ⟨.ADC, .IZY, 5, 2⟩, ⟨.JAM, .IMP, 2, 0⟩, ⟨.JAM, .IMP, 8, 0⟩,
  ⟨.JAM, .IMP, 4, 0⟩, ⟨.ADC, .ZPX, 4, 2⟩, ⟨.ROR, .ZPX, 6, 2⟩, ⟨.JAM, .IMP, 6, 0⟩,
  ⟨.SEI, .IMP, 2, 1⟩, ⟨.ADC, .ABY, 4, 3⟩, ⟨.JAM, .IMP, 2, 0⟩, ⟨.JAM, .IMP, 7, 0⟩,
  ⟨.JAM, .IMP, 4, 0⟩, ⟨.ADC, .ABX, 4, 3⟩, ⟨.ROR, .ABX, 7, 3⟩, ⟨.JAM, .IMP, 7, 0⟩]

/-- Row 0x80–0x8F of the source decode table. -/
def tableRow8 : List Instruction := [
  ⟨.JAM, .IMP, 2, 0⟩, ⟨.STA, .IZX, 6, 2⟩, ⟨.JAM, .IMP, 2, 0⟩, ⟨.JAM, .IMP, 6, 0⟩,
  ⟨.STY, .ZP0, 3, 2⟩, ⟨.STA, .ZP0, 3, 2⟩, ⟨.STX, .ZP0, 3, 2⟩, ⟨.JAM, .IMP, 3, 0⟩,
  ⟨.DEY, .IMP, 2, 1⟩, ⟨.JAM, .IMP, 2, 0⟩, ⟨.TXA, .IMP, 2, 1⟩, ⟨.JAM, .IMP, 2, 0⟩,
  ⟨.STY, .ABS, 4, 3⟩, ⟨.STA, .ABS, 4, 3⟩, ⟨.STX, .ABS, 4, 3⟩, ⟨.JAM, .IMP, 4, 0⟩]

/-- Row 0x90–0x9F of the source decode table. -/
def tableRow9 : List Instruction := [
  ⟨.BCC, .REL, 2, 2⟩, ⟨.STA, .IZY, 6, 2⟩, ⟨.JAM, .IMP, 2, 0⟩, ⟨.JAM, .IMP, 6, 0⟩,
  ⟨.STY, .ZPX, 4, 2⟩, ⟨.STA, .ZPX, 4, 2⟩, ⟨.STX, .ZPY, 4, 2⟩, ⟨.JAM, .IMP, 4, 0⟩,
  ⟨.TYA, .IMP, 2, 1⟩, ⟨.STA, .ABY, 5, 3⟩, ⟨.TXS, .IMP, 2, 1⟩, ⟨.JAM, .IMP, 5, 0⟩,
  ⟨.JAM, .IMP, 5, 0⟩, ⟨.STA, .ABX, 5, 3⟩, ⟨.JAM, .IMP, 5, 0⟩, ⟨.JAM, .IMP, 5, 0⟩]

/-- Row 0xA0–0xAF of the source decode table. -/
def tableRowA : List Instruction := [
  ⟨.LDY, .IMM, 2, 2⟩, ⟨.LDA, .IZX, 6, 2⟩, ⟨.LDX, .IMM, 2, 2⟩, ⟨.JAM, .IMP, 6, 0⟩,
  ⟨.LDY, .ZP0, 3, 2⟩, ⟨.LDA, .ZP0, 3, 2⟩, ⟨.LDX, .ZP0, 3, 2⟩, ⟨.JAM, .IMP, 3, 0⟩,
  ⟨.TAY, .IMP, 2, 1⟩, ⟨.LDA, .IMM, 2, 2⟩, ⟨.TAX, .IMP, 2, 1⟩, ⟨.JAM, .IMP, 2, 0⟩,
  ⟨.LDY, .ABS, 4, 3⟩, ⟨.LDA, .ABS, 4, 3⟩, ⟨.LDX, .ABS, 4, 3⟩, ⟨.JAM, .IMP, 4, 0⟩]

/-- Row 0xB0–0xBF of the source decode table. -/
def tableRowB : List Instruction := [
  ⟨.BCS, .REL, 2, 2⟩, ⟨.LDA, .IZY, 5, 2⟩, ⟨.JAM, .IMP, 2, 0⟩, ⟨.JAM, .IMP, 5, 0⟩,
  ⟨.LDY, .ZPX, 4, 2⟩, ⟨.LDA, .ZPX, 4, 2⟩, ⟨.LDX, .ZPY, 4, 2⟩, ⟨.JAM, .IMP, 4, 0⟩,
  ⟨.CLV, .IMP, 2, 1⟩, ⟨.LDA, .ABY, 4, 3⟩, ⟨.TSX, .IMP, 2, 1⟩, ⟨.JAM, .IMP, 4, 0⟩,
  ⟨.LDY, .ABX, 4, 3⟩, ⟨.LDA, .ABX, 4, 3⟩, ⟨.LDX, .ABY, 4, 3⟩, ⟨.JAM, .IMP, 4, 0⟩]

/-- Row 0xC0–0xCF of the source decode table. -/
def tableRowC : List Instruction := [
  ⟨.CPY, .IMM, 2, 2⟩, ⟨.CMP, .IZX, 6, 2⟩, ⟨.JAM, .IMP, 2, 0⟩, ⟨.JAM, .IMP, 8, 0⟩,
  ⟨.CPY, .ZP0, 3, 2⟩, ⟨.CMP, .ZP0, 3, 2⟩, ⟨.DEC, .ZP0, 5, 2⟩, ⟨.JAM, .IMP, 5, 0⟩,
  ⟨.INY, .IMP, 2, 1⟩, ⟨.CMP, .IMM, 2, 2⟩, ⟨.DEX, .IMP, 2, 1⟩, ⟨.JAM, .IMP, 2, 0⟩,
  ⟨.CPY, .ABS, 4, 3⟩, ⟨.CMP, .ABS, 4, 3⟩, ⟨.DEC, .ABS, 6, 3⟩, ⟨.JAM, .IMP, 6, 0⟩]

/-- Row 0xD0–0xDF of the source decode table. -/
def tableRowD : List Instruction := [
  ⟨.BNE, .REL, 2, 2⟩, ⟨.CMP, .IZY, 5, 2⟩, ⟨.JAM, .IMP, 2, 0⟩, ⟨.JAM, .IMP, 8, 0⟩,
  ⟨.JAM, .IMP, 4, 0⟩, ⟨.CMP, .ZPX, 4, 2⟩, ⟨.DEC, .ZPX, 6, 2⟩, ⟨.JAM, .IMP, 6, 0⟩,
  ⟨.CLD, .IMP, 2, 1⟩, ⟨.CMP, .ABY, 4, 3⟩, ⟨.NOP, .IMP, 2, 1⟩, ⟨.JAM, .IMP, 7, 0⟩,
  ⟨.JAM, .IMP, 4, 0⟩, ⟨.CMP, .ABX, 4, 3⟩, ⟨.DEC, .ABX, 7, 3⟩, ⟨.JAM, .IMP, 7, 0⟩]

/-- Row 0xE0–0xEF of the source decode table. -/
def tableRowE : List Instruction := [
  ⟨.CPX, .IMM, 2, 2⟩, ⟨.SBC, .IZX, 6, 2⟩, ⟨.JAM, .IMP, 2, 0⟩, ⟨.JAM, .IMP, 8, 0⟩,
  ⟨.CPX, .ZP0, 3, 2⟩, ⟨.SBC, .ZP0, 3, 2⟩, ⟨.INC, .ZP0, 5, 2⟩, ⟨.JAM, .IMP, 5, 0⟩,
  ⟨.INX, .IMP, 2, 1⟩, ⟨.SBC, .IMM, 2, 2⟩, ⟨.NOP, .IMP, 2, 1⟩, ⟨.JAM, .IMP, 2, 0⟩,
  ⟨.CPX, .ABS, 4, 3⟩, ⟨.SBC, .ABS, 4, 3⟩, ⟨.INC, .ABS, 6, 3⟩, ⟨.JAM, .IMP, 6, 0⟩]

/-- Row 0xF0–0xFF of the source decode table. -/
def tableRowF : List Instruction := [
  ⟨.BEQ, .REL, 2, 2⟩, ⟨.SBC, .IZY, 5, 2⟩, ⟨.JAM, .IMP, 2, 0⟩, ⟨.JAM, .IMP, 8, 0⟩,
  ⟨.JAM, .IMP, 4, 0⟩, ⟨.SBC, .ZPX, 4, 2⟩, ⟨.INC, .ZPX, 6, 2⟩, ⟨.JAM, .IMP, 6, 0⟩,
  ⟨.SED, .IMP, 2, 1⟩, ⟨.SBC, .ABY, 4, 3⟩, ⟨.NOP, .IMP, 2, 1⟩, ⟨.JAM, .IMP, 7, 0⟩,
  ⟨.JAM, .IMP, 4, 0⟩, ⟨.SBC, .ABX, 4, 3⟩, ⟨.INC, .ABX, 7, 3⟩, ⟨.JAM, .IMP, 7, 0⟩]
/-- The 256-entry decode table transcribed from src/nes/isa.py
(InstructionLookupTable.table), in opcode order 0x00..0xFF, assembled from
its sixteen rows. -/
def InstructionLookupTable.table : List Instruction :=
  tableRow0 ++ tableRow1 ++ tableRow2 ++ tableRow3 ++ tableRow4 ++ tableRow5 ++
  tableRow6 ++ tableRow7 ++ tableRow8 ++ tableRow9 ++ tableRowA ++ tableRowB ++
  tableRowC ++ tableRowD ++ tableRowE ++ tableRowF

/-- Row 0x00–0x0F of the spec decode table. -/
def specRow0 : List Instruction := [
  ⟨.BRK, .IMM, 7, 1⟩, ⟨.ORA, .IZX, 6, 2⟩, ⟨.JAM, .IMP, 2, 0⟩, ⟨.JAM, .IMP, 8, 0⟩,
  ⟨.JAM, .IMP, 3, 0⟩, ⟨.ORA, .ZP0, 3, 2⟩, ⟨.ASL, .ZP0, 5, 2⟩, ⟨.JAM, .IMP, 5, 0⟩,
  ⟨.PHP, .IMP, 3, 1⟩, ⟨.ORA, .IMM, 2, 2⟩, ⟨.ASL, .IMP, 2, 1⟩, ⟨.JAM, .IMP, 2, 0⟩,
  ⟨.JAM, .IMP, 4, 0⟩, ⟨.ORA, .ABS, 4, 3⟩, ⟨.ASL, .ABS, 6, 3⟩, ⟨.JAM, .IMP, 6, 0⟩]

/-- Row 0x10–0x1F of the spec decode table. -/
def specRow1 : List Instruction := [
  ⟨.BPL, .REL, 2, 2⟩, ⟨.ORA, .IZY, 5, 2⟩, ⟨.JAM, .IMP, 2, 0⟩, ⟨.JAM, .IMP, 8, 0⟩,
  ⟨.JAM, .IMP, 4, 0⟩, ⟨.ORA, .ZPX, 4, 2⟩, ⟨.ASL, .ZPX, 6, 2⟩, ⟨.JAM, .IMP, 6, 0⟩,
  ⟨.CLC, .IMP, 2, 1⟩, ⟨.ORA, .ABY, 4, 3⟩, ⟨.JAM, .IMP, 2, 0⟩, ⟨.JAM, .IMP, 7, 0⟩,
  ⟨.JAM, .IMP, 4, 0⟩, ⟨.ORA, .ABX, 4, 3⟩, ⟨.ASL, .ABX, 7, 3⟩, ⟨.JAM, .IMP, 7, 0⟩]

/-- Row 0x20–0x2F of the spec decode table. -/
def specRow2 : List Instruction := [
  ⟨.JSR, .ABS, 6, 3⟩, ⟨.AND, .IZX, 6, 2⟩, ⟨.JAM, .IMP, 2, 0⟩, ⟨.JAM, .IMP, 8, 0⟩,
  ⟨.BIT, .ZP0, 3, 2⟩, ⟨.AND, .ZP0, 3, 2⟩, ⟨.ROL, .ZP0, 5, 2⟩, ⟨.JAM, .IMP, 5, 0⟩,
  ⟨.PLP, .IMP, 4, 1⟩, ⟨.AND, .IMM, 2, 2⟩, ⟨.ROL, .IMP, 2, 1⟩, ⟨.JAM, .IMP, 2, 0⟩,
  ⟨.BIT, .ABS, 4, 3⟩, ⟨.AND, .ABS, 4, 3⟩, ⟨.ROL, .ABS, 6, 3⟩, ⟨.JAM, .IMP, 6, 0⟩]

/-- Row 0x30–0x3F of the spec decode table. -/
def specRow3 : List Instruction := [
  ⟨.BMI, .REL, 2, 2⟩, ⟨.AND, .IZY, 5, 2⟩, ⟨.JAM, .IMP, 2, 0⟩, ⟨.JAM, .IMP, 8, 0⟩,
  ⟨.JAM, .IMP, 4, 0⟩, ⟨.AND, .ZPX, 4, 2⟩, ⟨.ROL, .ZPX, 6, 2⟩, ⟨.JAM, .IMP, 6, 0⟩,
  ⟨.SEC, .IMP, 2, 1⟩, ⟨.AND, .ABY, 4, 3⟩, ⟨.JAM, .IMP, 2, 0⟩, ⟨.JAM, .IMP, 7, 0⟩,
  ⟨.JAM, .IMP, 4, 0⟩, ⟨.AND, .ABX, 4, 3⟩, ⟨.ROL, .ABX, 7, 3⟩, ⟨.JAM, .IMP, 7, 0⟩]

/-- Row 0x40–0x4F of the spec decode table. -/
def specRow4 : List Instruction := [
  ⟨.RTI, .IMP, 6, 1⟩, ⟨.EOR, .IZX, 6, 2⟩, ⟨.JAM, .IMP, 2, 0⟩, ⟨.JAM, .IMP, 8, 0⟩,
  ⟨.JAM, .IMP, 3, 0⟩, ⟨.EOR, .ZP0, 3, 2⟩, ⟨.LSR, .ZP0, 5, 2⟩, ⟨.JAM, .IMP, 5, 0⟩,
  ⟨.PHA, .IMP, 3, 1⟩, ⟨.EOR, .IMM, 2, 2⟩, ⟨.LSR, .IMP, 2, 1⟩, ⟨.JAM, .IMP, 2, 0⟩,
  ⟨.JMP, .ABS, 3, 3⟩, ⟨.EOR, .ABS, 4, 3⟩, ⟨.LSR, .ABS, 6, 3⟩, ⟨.JAM, .IMP, 6, 0⟩]

/-- Row 0x50–0x5F of the spec decode table. -/
def specRow5 : List Instruction := [
  ⟨.BVC, .REL, 2, 2⟩, ⟨.EOR, .IZY, 5, 2⟩, ⟨.JAM, .IMP, 2, 0⟩, ⟨.JAM, .IMP, 8, 0⟩,
  ⟨.JAM, .IMP, 4, 0⟩, ⟨.EOR, .ZPX, 4, 2⟩, ⟨.LSR, .ZPX, 6, 2⟩, ⟨.JAM, .IMP, 6, 0⟩,
  ⟨.CLI, .IMP, 2, 1⟩, ⟨.EOR, .ABY, 4, 3⟩, ⟨.JAM, .IMP, 2, 0⟩, ⟨.JAM, .IMP, 7, 0⟩,
  ⟨.JAM, .IMP, 4, 0⟩, ⟨.EOR, .ABX, 4, 3⟩, ⟨.LSR, .ABX, 7, 3⟩, ⟨.JAM, .IMP, 7, 0⟩]

/-- Row 0x60–0x6F of the spec decode table. -/
def specRow6 : List Instruction := [
  ⟨.RTS, .IMP, 6, 1⟩, ⟨.ADC, .IZX, 6, 2⟩, ⟨.JAM, .IMP, 2, 0⟩, ⟨.JAM, .IMP, 8, 0⟩,
  ⟨.JAM, .IMP, 3, 0⟩, ⟨.ADC, .ZP0, 3, 2⟩, ⟨.ROR, .ZP0, 5, 2⟩, ⟨.JAM, .IMP, 5, 0⟩,
  ⟨.PLA, .IMP, 4, 1⟩, ⟨.ADC, .IMM, 2, 2⟩, ⟨.ROR, .IMP, 2, 1⟩, ⟨.JAM, .IMP, 2, 0⟩,
  ⟨.JMP, .IND, 5, 3⟩, ⟨.ADC, .ABS, 4, 3⟩, ⟨.ROR, .ABS, 6, 3⟩, ⟨.JAM, .IMP, 6, 0⟩]

/-- Row 0x70–0x7F of the spec decode table. -/
def specRow7 : List Instruction := [
  ⟨.BVS, .REL, 2, 2⟩, ⟨.ADC, .IZY, 5, 2⟩, ⟨.JAM, .IMP, 2, 0⟩, ⟨.JAM, .IMP, 8, 0⟩,
  ⟨.JAM, .IMP, 4, 0⟩, ⟨.ADC, .ZPX, 4, 2⟩, ⟨.ROR, .ZPX, 6, 2⟩, ⟨.JAM, .IMP, 6, 0⟩,
  ⟨.SEI, .IMP, 2, 1⟩, ⟨.ADC, .ABY, 4, 3⟩, ⟨.JAM, .IMP, 2, 0⟩, ⟨.JAM, .IMP, 7, 0⟩,
  ⟨.JAM, .IMP, 4, 0⟩, ⟨.ADC, .ABX, 4, 3⟩, ⟨.ROR, .ABX, 7, 3⟩, ⟨.JAM, .IMP, 7, 0⟩]

/-- Row 0x80–0x8F of the spec decode table. -/
def specRow8 : List Instruction := [
  ⟨.JAM, .IMP, 2, 0⟩, ⟨.STA, .IZX, 6, 2⟩, ⟨.JAM, .IMP, 2, 0⟩, ⟨.JAM, .IMP, 6, 0⟩,
  ⟨.STY, .ZP0, 3, 2⟩, ⟨.STA, .ZP0, 3, 2⟩, ⟨.STX, .ZP0, 3, 2⟩, ⟨.JAM, .IMP, 3, 0⟩,
  ⟨.DEY, .IMP, 2, 1⟩, ⟨.JAM, .IMP, 2, 0⟩, ⟨.TXA, .IMP, 2, 1⟩, ⟨.JAM, .IMP, 2, 0⟩,
  ⟨.STY, .ABS, 4, 3⟩, ⟨.STA, .ABS, 4, 3⟩, ⟨.STX, .ABS, 4, 3⟩, ⟨.JAM, .IMP, 4, 0⟩]

/-- Row 0x90–0x9F of the spec decode table. -/
def specRow9 : List Instruction := [
  ⟨.BCC, .REL, 2, 2⟩, ⟨.STA, .IZY, 6, 2⟩, ⟨.JAM, .IMP, 2, 0⟩, ⟨.JAM, .IMP, 6, 0⟩,
  ⟨.STY, .ZPX, 4, 2⟩, ⟨.STA, .ZPX, 4, 2⟩, ⟨.STX, .ZPY, 4, 2⟩, ⟨.JAM, .IMP, 4, 0⟩,
  ⟨.TYA, .IMP, 2, 1⟩, ⟨.STA, .ABY, 5, 3⟩, ⟨.TXS, .IMP, 2, 1⟩, ⟨.JAM, .IMP, 5, 0⟩,
  ⟨.JAM, .IMP, 5, 0⟩, ⟨.STA, .ABX, 5, 3⟩, ⟨.JAM, .IMP, 5, 0⟩, ⟨.JAM, .IMP, 5, 0⟩]

/-- Row 0xA0–0xAF of the spec decode table. -/
def specRowA : List Instruction := [
  ⟨.LDY, .IMM, 2, 2⟩, ⟨.LDA, .IZX, 6, 2⟩, ⟨.LDX, .IMM, 2, 2⟩, ⟨.JAM, .IMP, 6, 0⟩,
  ⟨.LDY, .ZP0, 3, 2⟩, ⟨.LDA, .ZP0, 3, 2⟩, ⟨.LDX, .ZP0, 3, 2⟩, ⟨.JAM, .IMP, 3, 0⟩,
  ⟨.TAY, .IMP, 2, 1⟩, ⟨.LDA, .IMM, 2, 2⟩, ⟨.TAX, .IMP, 2, 1⟩, ⟨.JAM, .IMP, 2, 0⟩,
  ⟨.LDY, .ABS, 4, 3⟩, ⟨.LDA, .ABS, 4, 3⟩, ⟨.LDX, .ABS, 4, 3⟩, ⟨.JAM, .IMP, 4, 0⟩]

/-- Row 0xB0–0xBF of the spec decode table. -/
def specRowB : List Instruction := [
  ⟨.BCS, .REL, 2, 2⟩, ⟨.LDA, .IZY, 5, 2⟩, ⟨.JAM, .IMP, 2, 0⟩, ⟨.JAM, .IMP, 5, 0⟩,
  ⟨.LDY, .ZPX, 4, 2⟩, ⟨.LDA, .ZPX, 4, 2⟩, ⟨.LDX, .ZPY, 4, 2⟩, ⟨.JAM, .IMP, 4, 0⟩,
  ⟨.CLV, .IMP, 2, 1⟩, ⟨.LDA, .ABY, 4, 3⟩, ⟨.TSX, .IMP, 2, 1⟩, ⟨.JAM, .IMP, 4, 0⟩,
  ⟨.LDY, .ABX, 4, 3⟩, ⟨.LDA, .ABX, 4, 3⟩, ⟨.LDX, .ABY, 4, 3⟩, ⟨.JAM, .IMP, 4, 0⟩]

/-- Row 0xC0–0xCF of the spec decode table. -/
def specRowC : List Instruction := [
  ⟨.CPY, .IMM, 2, 2⟩, ⟨.CMP, .IZX, 6, 2⟩, ⟨.JAM, .IMP, 2, 0⟩, ⟨.JAM, .IMP, 8, 0⟩,
  ⟨.CPY, .ZP0, 3, 2⟩, ⟨.CMP, .ZP0, 3, 2⟩, ⟨.DEC, .ZP0, 5, 2⟩, ⟨.JAM, .IMP, 5, 0⟩,
  ⟨.INY, .IMP, 2, 1⟩, ⟨.CMP, .IMM, 2, 2⟩, ⟨.DEX, .IMP, 2, 1⟩, ⟨.JAM, .IMP, 2, 0⟩,
  ⟨.CPY, .ABS, 4, 3⟩, ⟨.CMP, .ABS, 4, 3⟩, ⟨.DEC, .ABS, 6, 3⟩, ⟨.JAM, .IMP, 6, 0⟩]

/-- Row 0xD0–0xDF of the spec decode table. -/
def specRowD : List Instruction := [
  ⟨.BNE, .REL, 2, 2⟩, ⟨.CMP, .IZY, 5, 2⟩, ⟨.JAM, .IMP, 2, 0⟩, ⟨.JAM, .IMP, 8, 0⟩,
  ⟨.JAM, .IMP, 4, 0⟩, ⟨.CMP, .ZPX, 4, 2⟩, ⟨.DEC, .ZPX, 6, 2⟩, ⟨.JAM, .IMP, 6, 0⟩,
  ⟨.CLD, .IMP, 2, 1⟩, ⟨.CMP, .ABY, 4, 3⟩, ⟨.NOP, .IMP, 2, 1⟩, ⟨.JAM, .IMP, 7, 0⟩,
  ⟨.JAM, .IMP, 4, 0⟩, ⟨.CMP, .ABX, 4, 3⟩, ⟨.DEC, .ABX, 7, 3⟩, ⟨.JAM, .IMP, 7, 0⟩]

/-- Row 0xE0–0xEF of the spec decode table. -/
def specRowE : List Instruction := [
  ⟨.CPX, .IMM, 2, 2⟩, ⟨.SBC, .IZX, 6, 2⟩, ⟨.JAM, .IMP, 2, 0⟩, ⟨.JAM, .IMP, 8, 0⟩,
  ⟨.CPX, .ZP0, 3, 2⟩, ⟨.SBC, .ZP0, 3, 2⟩, ⟨.INC, .ZP0, 5, 2⟩, ⟨.JAM, .IMP, 5, 0⟩,
  ⟨.INX, .IMP, 2, 1⟩, ⟨.SBC, .IMM, 2, 2⟩, ⟨.NOP, .IMP, 2, 1⟩, ⟨.JAM, .IMP, 2, 0⟩,
  ⟨.CPX, .ABS, 4, 3⟩, ⟨.SBC, .ABS, 4, 3⟩, ⟨.INC, .ABS, 6, 3⟩, ⟨.JAM, .IMP, 6, 0⟩]

/-- Row 0xF0–0xFF of the spec decode table. -/
def specRowF : List Instruction := [
  ⟨.BEQ, .REL, 2, 2⟩, ⟨.SBC, .IZY, 5, 2⟩, ⟨.JAM, .IMP, 2, 0⟩, ⟨.JAM, .IMP, 8, 0⟩,
  ⟨.JAM, .IMP, 4, 0⟩, ⟨.SBC, .ZPX, 4, 2⟩, ⟨.INC, .ZPX, 6, 2⟩, ⟨.JAM, .IMP, 6, 0⟩,
  ⟨.SED, .IMP, 2, 1⟩, ⟨.SBC, .ABY, 4, 3⟩, ⟨.NOP, .IMP, 2, 1⟩, ⟨.JAM, .IMP, 7, 0⟩,
  ⟨.JAM, .IMP, 4, 0⟩, ⟨.SBC, .ABX, 4, 3⟩, ⟨.INC, .ABX, 7, 3⟩, ⟨.JAM, .IMP, 7, 0⟩]
/-- Decode table following the literal table in spec section 6, in opcode
order 0x00..0xFF, for comparison with the table transcribed from the source. -/
def specDecodeTable : List Instruction :=
  specRow0 ++ specRow1 ++ specRow2 ++ specRow3 ++ specRow4 ++ specRow5 ++
  specRow6 ++ specRow7 ++ specRow8 ++ specRow9 ++ specRowA ++ specRowB ++
  specRowC ++ specRowD ++ specRowE ++ specRowF

/-- Dictionary lookup into the decode table, src/nes/isa.py
(`InstructionLookupTable.table[opcode]`): the dict is keyed by every byte
value 0x00..0xFF, embedded as positional lookup into the 256-entry list. -/
def InstructionLookupTable.lookup (v : Nat) : Option Instruction :=
  InstructionLookupTable.table[v]?

/-- The memory bus of src/nes/bus.py: a 64 KB array of unsigned bytes,
embedded as a function from cell index to byte value. -/
structure Bus where
  ram : Nat → Nat

/-- A freshly constructed bus (`np.zeros(64 * 1024, dtype=uint8)`). -/
def Bus.init : Bus := ⟨fun _ => 0⟩

/-- Bus.write from src/nes/bus.py: if `0x0000 <= addr <= 0xFFFF` store the
byte into `ram[addr]`, otherwise raise IndexError.  The raise happens before
any mutation, so the error value carries the bus unchanged. -/
def Bus.write (b : Bus) (addr : Int) (data : Nat) : Except Bus Bus :=
  if 0 ≤ addr ∧ addr ≤ 0xFFFF then
    .ok ⟨fun i => if i = addr.toNat then data else b.ram i⟩
  else
    .error b

/-- Bus.read from src/nes/bus.py: if `0x0000 <= addr <= 0xFFFF` return
`ram[addr]`, otherwise return `0x00` without raising. -/
def Bus.read (b : Bus) (addr : Int) : Nat :=
  if 0 ≤ addr ∧ addr ≤ 0xFFFF then b.ram addr.toNat else 0

/-- The loader's copy loop in Bus.load_to_ram (src/nes/bus.py):
`for data in data_list: self.ram[ram_offset] = data; ram_offset += 1`. -/
def storeList (ram : Nat → Nat) (off : Nat) : List Nat → (Nat → Nat)
  | [] => ram
  | d :: ds => storeList (fun i => if i = off then d else ram i) (off + 1) ds

/-- Bus.load_to_ram from src/nes/bus.py, with the file's bytes as a list:
copies each byte sequentially into ram starting at ram_offset.  The Python
function body has no return statement, so it returns None — embedded as
`none` in the second component. -/
def Bus.load_to_ram (b : Bus) (ram_offset : Nat) (data_list : List Nat) :
    Bus × Option Nat :=
  (⟨storeList b.ram ram_offset data_list⟩, none)

/-- The register file, src/nes/register.py: accumulator, index registers,
stack pointer and status are bytes; the program counter is a 16-bit word. -/
structure Register where
  a : Nat
  x : Nat
  y : Nat
  stkp : Nat
  pc : Nat
  status : Nat
deriving DecidableEq

/-- Register.get_flag: `1 if status & flag.value > 0 else 0`. -/
def Register.get_flag (r : Register) (f : Flags) : Nat :=
  if r.status &&& f.value > 0 then 1 else 0

/-- Register.set_flag: OR the mask in when true, AND its 8-bit complement
out when false (`status &= ~flag.value` on a byte-valued status). -/
def Register.set_flag (r : Register) (f : Flags) (value : Bool) : Register :=
  if value then { r with status := r.status ||| f.value }
  else { r with status := r.status &&& (f.value ^^^ 0xFF) }

/-- The mutable state of one concrete CPU bound to one bus: the register
file and the transient decode state of src/nes/cpu.py and
src/nes/olc6502.py, with the referenced bus's RAM inlined so that the
instruction handlers' memory effects are visible in one state value. -/
structure CpuState where
  register : Register
  ram : Nat → Nat
  addr_abs : Nat
  addr_rel : Nat
  opcode : Nat
  cycles : Nat
  fetched : Nat

/-- Olc6502.read delegates to Bus.read; the address is a 16-bit word so the
bus's in-range branch applies (out-of-range values return 0 as in Bus.read). -/
def Olc6502.read (s : CpuState) (addr : Nat) : Nat :=
  if addr ≤ 0xFFFF then s.ram addr else 0

/-- Olc6502.write delegates to Bus.write.  Every call site embedded below
passes a stack-page address (0x0100 + stkp ≤ 0x01FF) or a byte-valued
address, both within 0x0000–0xFFFF, so Bus.write's out-of-range raise
(modelled in Bus.write above) is unreachable from these handlers. -/
def Olc6502.write (s : CpuState) (addr data : Nat) : CpuState :=
  { s with ram := fun i => if i = addr then data else s.ram i }

/-- Olc6502.reset (src/nes/olc6502.py): load `pc` from the little-endian
reset vector at 0xFFFC/0xFFFD, zero the data registers, set stkp = 0xFD,
status = Unused only (0x20), clear the transient decode state, cycles = 8. -/
def Olc6502.reset (s : CpuState) : CpuState :=
  let lo := Olc6502.read s 0xFFFC
  let hi := Olc6502.read s 0xFFFD
  { s with
    register := { a := 0, x := 0, y := 0, stkp := 0xFD,
                  pc := ((hi <<< 8) ||| lo) % 65536, status := 0x20 },
    addr_rel := 0,
    addr_abs := 0,
    fetched := 0,
    cycles := 8 }

/-- AddressModeSelector.IMM (src/nes/address_mode_selector.py).  The source
increments `pc` first and then assigns `addr_abs = pc`, in that order:
`self.cpu.register.pc += 1; self.cpu.addr_abs = self.cpu.register.pc`. -/
def AddressModeSelector.IMM (s : CpuState) : CpuState × Bool :=
  let pcNew := (s.register.pc + 1) % 65536
  ({ s with register := { s.register with pc := pcNew }, addr_abs := pcNew },
   false)

/-- InstructionSelector.select (src/nes/instruction_selector.py): if the
mnemonic is the JAM sentinel, raise ValueError immediately — before the
`getattr` dispatch runs any handler — so the error carries the entry state
untouched.  The dynamic `getattr(self, Opcodes(opcode).name)()` dispatch is
embedded as an explicit handler argument: for a non-JAM mnemonic the result
is whatever that mnemonic's handler produces from the entry state. -/
def InstructionSelector.select (s : CpuState) (op : Opcodes)
    (handler : CpuState → CpuState × Bool) : Except CpuState (CpuState × Bool) :=
  if op = Opcodes.JAM then .error s else .ok (handler s)

/-- InstructionSelector.RTS (src/nes/instruction_selector.py): increments
stkp, assigns `pc = read(0x0100 + stkp)`, increments stkp again, then
assigns `pc = read(0x0100 + stkp) << 8` — the second assignment overwrites
the first (no OR), and no 1 is added. -/
def InstructionSelector.RTS (s : CpuState) : CpuState × Bool :=
  let stkp1 := (s.register.stkp + 1) % 256
  let pcFirst := Olc6502.read s (0x0100 + stkp1)
  let s1 := { s with register := { s.register with stkp := stkp1, pc := pcFirst } }
  let stkp2 := (stkp1 + 1) % 256
  let pcSecond := ((Olc6502.read s1 (0x0100 + stkp2)) <<< 8) % 65536
  ({ s1 with register := { s1.register with stkp := stkp2, pc := pcSecond } },
   false)

/-- InstructionSelector.BRK (src/nes/instruction_selector.py): advance pc
past the padding byte, set InterruptDisable, push pc high then pc low to
`stkp + 0x0100`, set Break, write status to the bare `stkp` address (the
source omits the `+ 0x0100` on this third write), clear Break, and load pc
from the IRQ vector at 0xFFFE/0xFFFF.  stkp is a byte and wraps on each
decrement. -/
def InstructionSelector.BRK (s : CpuState) : CpuState × Bool :=
  let s1 := { s with register := { s.register with pc := (s.register.pc + 1) % 65536 } }
  let s2 := { s1 with register := Register.set_flag s1.register Flags.I true }
  let s3 := Olc6502.write s2 (s2.register.stkp + 0x0100)
              ((s2.register.pc >>> 8) &&& 0x00FF)
  let s4 := { s3 with register := { s3.register with stkp := (s3.register.stkp + 255) % 256 } }
  let s5 := Olc6502.write s4 (s4.register.stkp + 0x0100) (s4.register.pc &&& 0x00FF)
  let s6 := { s5 with register := { s5.register with stkp := (s5.register.stkp + 255) % 256 } }
  let s7 := { s6 with register := Register.set_flag s6.register Flags.B true }
  let s8 := Olc6502.write s7 s7.register.stkp s7.register.status
  let s9 := { s8 with register := { s8.register with stkp := (s8.register.stkp + 255) % 256 } }
  let s10 := { s9 with register := Register.set_flag s9.register Flags.B false }
  let pcNew := ((Olc6502.read s10 0xFFFE) ||| ((Olc6502.read s10 0xFFFF) <<< 8)) % 65536
  ({ s10 with register := { s10.register with pc := pcNew } }, false)

/-- InstructionSelector.BEQ (src/nes/instruction_selector.py): if the Zero
flag reads 1, add 1 to cycles, set `addr_abs = pc + addr_rel`, add another 1
to cycles when the destination's high byte differs from the current pc's,
then set `pc = addr_abs`; always return False.  cycles is a byte and pc a
16-bit word, so both additions wrap. -/
def InstructionSelector.BEQ (s : CpuState) : CpuState × Bool :=
  if Register.get_flag s.register Flags.Z = 1 then
    let s1 := { s with cycles := (s.cycles + 1) % 256 }
    let s2 := { s1 with addr_abs := (s1.register.pc + s1.addr_rel) % 65536 }
    let s3 := if (s2.addr_abs &&& 0xFF00) ≠ (s2.register.pc &&& 0xFF00) then
                { s2 with cycles := (s2.cycles + 1) % 256 }
              else s2
    ({ s3 with register := { s3.register with pc := s3.addr_abs } }, false)
  else
    (s, false)

/-- A 16-bit word assembled as `(hi <<< 8) ||| lo` equals `256 * hi + lo`
whenever the low half is a byte. -/
lemma shiftLeft_eight_lor_eq_add (hi lo : Nat) (h : lo < 256) :
    (hi <<< 8) ||| lo = 256 * hi + lo := by
  calc (hi <<< 8) ||| lo = 2 ^ 8 * hi ||| lo := by
        rw [Nat.shiftLeft_eq, Nat.mul_comm]
    _ = 2 ^ 8 * hi + lo :=
        (Nat.mul_add_lt_is_or (lt_of_lt_of_le h (by norm_num)) hi).symm
    _ = 256 * hi + lo := by norm_num

/-- Claim C6: for every address outside 0x0000–0xFFFF and every data byte,
Bus.write raises (carrying the bus unchanged, so every RAM byte is as it
was), while Bus.read at the same out-of-range address returns 0x00 without
raising. -/
theorem bus_out_of_range_behavior (b : Bus) (addr : Int) (data : Nat)
    (h : addr < 0 ∨ 0xFFFF < addr) :
    Bus.write b addr data = .error b ∧
    (∀ c, Bus.write b addr data = .error c → ∀ i, c.ram i = b.ram i) ∧
    Bus.read b addr = 0 := by
  have hno : ¬(0 ≤ addr ∧ addr ≤ 0xFFFF) := by omega
  refine ⟨?_, ?_, ?_⟩
  · unfold Bus.write
    rw [if_neg hno]
  · intro c hc i
    unfold Bus.write at hc
    rw [if_neg hno] at hc
    cases hc
    rfl
  · unfold Bus.read
    rw [if_neg hno]

/-- Witness for C6 at the spec's concrete input `write(0x10000, 0xCD)`. -/
theorem bus_out_of_range_behavior_witness :
    ((0x10000 : Int) < 0 ∨ (0xFFFF : Int) < 0x10000) ∧
    Bus.write Bus.init 0x10000 0xCD = .error Bus.init ∧
    Bus.read Bus.init 0x10000 = 0 := by
  have h := bus_out_of_range_behavior Bus.init 0x10000 0xCD (Or.inr (by norm_num))
  exact ⟨Or.inr (by norm_num), h.1, h.2.2⟩

/-- Claim C7: for every in-range address and byte, a write followed by a
read at the same address returns the byte, and no other RAM cell changes. -/
theorem bus_write_read_roundtrip (b : Bus) (addr : Int) (data : Nat)
    (h0 : 0 ≤ addr) (h1 : addr ≤ 0xFFFF) (h2 : data ≤ 255) :
    ∃ c, Bus.write b addr data = .ok c ∧
      Bus.read c addr = data ∧
      ∀ i, i ≠ addr.toNat → c.ram i = b.ram i := by
  refine ⟨⟨fun i => if i = addr.toNat then data else b.ram i⟩, ?_, ?_, ?_⟩
  · unfold Bus.write
    rw [if_pos ⟨h0, h1⟩]
  · unfold Bus.read
    rw [if_pos ⟨h0, h1⟩]
    simp
  · intro i hi
    simp [hi]

/-- Witness for C7 at address 0x1234 and byte 0xAB on a fresh bus. -/
theorem bus_write_read_roundtrip_witness :
    (0 : Int) ≤ 0x1234 ∧ (0x1234 : Int) ≤ 0xFFFF ∧ (0xAB : Nat) ≤ 255 ∧
    ∃ c, Bus.write Bus.init 0x1234 0xAB = .ok c ∧
      Bus.read c 0x1234 = 0xAB ∧
      ∀ i, i ≠ (0x1234 : Int).toNat → c.ram i = Bus.init.ram i :=
  ⟨by norm_num, by norm_num, by norm_num,
   bus_write_read_roundtrip Bus.init 0x1234 0xAB (by norm_num) (by norm_num)
     (by norm_num)⟩

/-- Claim C8: after reset the program counter holds the little-endian word
stored at 0xFFFC/0xFFFD, the data registers are zero, stkp = 0xFD,
status = 0x20, the transient decode state is cleared, and cycles = 8. -/
theorem reset_state (s : CpuState)
    (hlo : s.ram 0xFFFC ≤ 255) (hhi : s.ram 0xFFFD ≤ 255) :
    (Olc6502.reset s).register.pc = 256 * s.ram 0xFFFD + s.ram 0xFFFC ∧
    (Olc6502.reset s).register.a = 0 ∧
    (Olc6502.reset s).register.x = 0 ∧
    (Olc6502.reset s).register.y = 0 ∧
    (Olc6502.reset s).register.stkp = 0xFD ∧
    (Olc6502.reset s).register.status = 0x20 ∧
    (Olc6502.reset s).addr_rel = 0 ∧
    (Olc6502.reset s).addr_abs = 0 ∧
    (Olc6502.reset s).fetched = 0 ∧
    (Olc6502.reset s).cycles = 8 := by
  have hread : ∀ a : Nat, a ≤ 0xFFFF → Olc6502.read s a = s.ram a := by
    intro a ha
    unfold Olc6502.read
    rw [if_pos ha]
  have hl : Olc6502.read s 0xFFFC = s.ram 0xFFFC := hread _ (by norm_num)
  have hh : Olc6502.read s 0xFFFD = s.ram 0xFFFD := hread _ (by norm_num)
  refine ⟨?_, rfl, rfl, rfl, rfl, rfl, rfl, rfl, rfl, rfl⟩
  show ((Olc6502.read s 0xFFFD <<< 8) ||| Olc6502.read s 0xFFFC) % 65536 =
    256 * s.ram 0xFFFD + s.ram 0xFFFC
  rw [hl, hh, shiftLeft_eight_lor_eq_add _ _ (by omega)]
  exact Nat.mod_eq_of_lt (by omega)

/-- The reset-vector memory of the spec's concrete reset test:
`[0xFFFC] = 0x00`, `[0xFFFD] = 0x80`, all other cells zero. -/
def resetTestState : CpuState :=
  { register := { a := 0, x := 0, y := 0, stkp := 0, pc := 0, status := 0 },
    ram := fun i => if i = 0xFFFD then 0x80 else 0,
    addr_abs := 0, addr_rel := 0, opcode := 0, cycles := 0, fetched := 0 }

/-- Witness for C8: on the concrete reset-vector memory, reset lands the
program counter at 0x8000 with cycles = 8. -/
theorem reset_state_witness :
    resetTestState.ram 0xFFFC ≤ 255 ∧ resetTestState.ram 0xFFFD ≤ 255 ∧
    (Olc6502.reset resetTestState).register.pc = 0x8000 ∧
    (Olc6502.reset resetTestState).cycles = 8 := by
  have h := reset_state resetTestState (by decide) (by decide)
  refine ⟨by decide, by decide, ?_, h.2.2.2.2.2.2.2.2.2⟩
  rw [h.1]
  decide

/-- Claim C9: dispatching the instruction executor on the JAM sentinel
raises immediately, before any handler runs, with the CPU state (register
file and RAM) exactly as it was on entry — whatever the dispatched handler
would have done. -/
theorem select_jam_raises_unchanged (s : CpuState)
    (handler : CpuState → CpuState × Bool) :
    InstructionSelector.select s Opcodes.JAM handler = .error s := rfl

/-- Claim C10: when the Zero flag is set, BEQ sets pc to pc + addr_rel,
adds 1 cycle on a same-page destination and 2 on a page cross, and returns
false; when the flag is clear it leaves the whole state unchanged. -/
theorem beq_branch_cycles (s : CpuState) (hc : s.cycles < 254) :
    (Register.get_flag s.register Flags.Z = 1 →
      (InstructionSelector.BEQ s).1.register.pc =
        (s.register.pc + s.addr_rel) % 65536 ∧
      (InstructionSelector.BEQ s).1.cycles =
        (if ((s.register.pc + s.addr_rel) % 65536) &&& 0xFF00 =
            s.register.pc &&& 0xFF00
         then s.cycles + 1 else s.cycles + 2) ∧
      (InstructionSelector.BEQ s).2 = false) ∧
    (Register.get_flag s.register Flags.Z ≠ 1 →
      InstructionSelector.BEQ s = (s, false)) := by
  have hm1 : (s.cycles + 1) % 256 = s.cycles + 1 := Nat.mod_eq_of_lt (by omega)
  constructor
  · intro hz
    unfold InstructionSelector.BEQ
    rw [if_pos hz]
    simp only [ne_eq]
    split_ifs with hpg
    · refine ⟨rfl, ?_, ?_⟩
      · exact hm1
      · trivial
    · refine ⟨rfl, ?_, ?_⟩
      · show ((s.cycles + 1) % 256 + 1) % 256 = s.cycles + 2
        rw [hm1]
        exact Nat.mod_eq_of_lt (by omega)
      · trivial
  · intro hz
    unfold InstructionSelector.BEQ
    rw [if_neg hz]

/-- Claim C1 (evaluating the source table at the failing opcode): the decode
table is total over 0x00–0xFF and matches the spec's literal table at 0x4C
and 0x02, but at opcode 0x0A the source entry is {ASL, IMP, 2, 2} — its
instruction length is 2 where the spec table (and every other accumulator
shift entry, 0x2A/0x4A/0x6A) has length 1; every entry other than 0x0A
agrees with the spec table exactly. -/
theorem decode_table_exactness :
    InstructionLookupTable.table.length = 256 ∧
    (∀ v : Fin 256, (InstructionLookupTable.lookup v.val).isSome = true) ∧
    InstructionLookupTable.lookup 0x4C = some ⟨.JMP, .ABS, 3, 3⟩ ∧
    InstructionLookupTable.lookup 0x02 = some ⟨.JAM, .IMP, 2, 0⟩ ∧
    InstructionLookupTable.lookup 0x0A = some ⟨.ASL, .IMP, 2, 2⟩ ∧
    specDecodeTable[0x0A]? = some ⟨.ASL, .IMP, 2, 1⟩ ∧
    InstructionLookupTable.table = specDecodeTable.set 0x0A ⟨.ASL, .IMP, 2, 2⟩ := by
  set_option maxRecDepth 4096 in decide

/-- A CPU state poised to execute RTS: the stack holds the 16-bit return
address 0x1234 (low byte 0x34 at 0x01FC, high byte 0x12 at 0x01FD) with
stkp = 0xFB, as left by a push of 0x12 then 0x34. -/
def rtsTestState : CpuState :=
  { register := { a := 0, x := 0, y := 0, stkp := 0xFB, pc := 0x3000,
                  status := 0x20 },
    ram := fun i => if i = 0x01FC then 0x34 else if i = 0x01FD then 0x12 else 0,
    addr_abs := 0, addr_rel := 0, opcode := 0x60, cycles := 0, fetched := 0 }

/-- Claim C2 (evaluating the source RTS at the failing input): with 0x1234
on the stack, the source handler leaves pc = 0x1200 — the second pop's
`pc = read(...) << 8` overwrites the popped low byte instead of OR-ing it
in, and no 1 is added — whereas combining and incrementing would give
0x1235.  Both pops do advance stkp from 0xFB to 0xFD. -/
theorem rts_drops_low_byte_and_increment :
    (InstructionSelector.RTS rtsTestState).1.register.pc = 0x1200 ∧
    (InstructionSelector.RTS rtsTestState).1.register.stkp = 0xFD ∧
    (InstructionSelector.RTS rtsTestState).2 = false ∧
    (0x1200 : Nat) ≠ ((0x12 <<< 8) ||| 0x34) + 1 := by
  refine ⟨rfl, rfl, rfl, by decide⟩

/-- A CPU state poised to execute BRK: stkp = 0xFD, pc at the BRK opcode's
successor (0x8000), status holding only the Unused bit, RAM all zero. -/
def brkTestState : CpuState :=
  { register := { a := 0, x := 0, y := 0, stkp := 0xFD, pc := 0x8000,
                  status := 0x20 },
    ram := fun _ => 0,
    addr_abs := 0, addr_rel := 0, opcode := 0x00, cycles := 0, fetched := 0 }

/-- Claim C3 (evaluating the source BRK at the failing input): the two
program-counter pushes do land in the stack page (high byte 0x80 at
0x0100 + 0xFD, low byte 0x01 at 0x0100 + 0xFC), but the status push —
0x34 = Unused ∣ Break ∣ InterruptDisable at the moment of the push — lands
at the bare stkp address 0x00FB in the zero page, leaving the stack-page
cell 0x01FB untouched, because the source omits the `+ 0x0100` on that
third write. -/
theorem brk_status_pushed_to_zero_page :
    (InstructionSelector.BRK brkTestState).1.ram 0x01FD = 0x80 ∧
    (InstructionSelector.BRK brkTestState).1.ram 0x01FC = 0x01 ∧
    (InstructionSelector.BRK brkTestState).1.ram 0x00FB = 0x34 ∧
    (InstructionSelector.BRK brkTestState).1.ram 0x01FB = 0 ∧
    (InstructionSelector.BRK brkTestState).1.register.stkp = 0xFA ∧
    (0x00FB : Nat) ≠ 0x01FB := by
  refine ⟨rfl, rfl, rfl, rfl, rfl, by decide⟩

/-- A CPU state entering the Immediate addressing resolver: pc = 0x8000,
the address of the operand byte that follows the already-consumed opcode. -/
def immTestState : CpuState :=
  { register := { a := 0, x := 0, y := 0, stkp := 0xFD, pc := 0x8000,
                  status := 0x20 },
    ram := fun _ => 0,
    addr_abs := 0, addr_rel := 0, opcode := 0xA9, cycles := 0, fetched := 0 }

/-- Claim C4 (evaluating the source Immediate resolver at the failing
input): entering with pc = 0x8000 the source sets addr_abs = 0x8001 — the
byte after the operand — because it increments pc before assigning
addr_abs; the claim requires addr_abs = 0x8000, the entry pc.  The pc
advance (to 0x8001) and the false return match the claim. -/
theorem imm_sets_addr_past_operand :
    (AddressModeSelector.IMM immTestState).1.addr_abs = 0x8001 ∧
    (AddressModeSelector.IMM immTestState).1.register.pc = 0x8001 ∧
    (AddressModeSelector.IMM immTestState).2 = false ∧
    (0x8001 : Nat) ≠ 0x8000 := by
  refine ⟨rfl, rfl, rfl, by decide⟩

/-- Claim C5 (evaluating the source loader at the failing input): loading
the three bytes 0xAB, 0xCD, 0xEF at offset 0x8000 into a fresh bus copies
them verbatim into ram[0x8000..0x8003) leaving neighbouring cells zero, but
the function returns None — its Python body has no return statement — and
not the offset 0x8003 following the last byte written. -/
theorem load_to_ram_returns_none :
    (Bus.load_to_ram Bus.init 0x8000 [0xAB, 0xCD, 0xEF]).1.ram 0x8000 = 0xAB ∧
    (Bus.load_to_ram Bus.init 0x8000 [0xAB, 0xCD, 0xEF]).1.ram 0x8001 = 0xCD ∧
    (Bus.load_to_ram Bus.init 0x8000 [0xAB, 0xCD, 0xEF]).1.ram 0x8002 = 0xEF ∧
    (Bus.load_to_ram Bus.init 0x8000 [0xAB, 0xCD, 0xEF]).1.ram 0x7FFF = 0 ∧
    (Bus.load_to_ram Bus.init 0x8000 [0xAB, 0xCD, 0xEF]).1.ram 0x8003 = 0 ∧
    (Bus.load_to_ram Bus.init 0x8000 [0xAB, 0xCD, 0xEF]).2 = none ∧
    (Bus.load_to_ram Bus.init 0x8000 [0xAB, 0xCD, 0xEF]).2 ≠ some 0x8003 := by
  refine ⟨by decide, by decide, by decide, by decide, by decide, rfl, by decide⟩

/-- A CPU state poised to take BEQ with the Zero flag set (status 0x22),
base cycles 2, pc = 0x8010 and displacement 0x10, keeping the destination
0x8020 on the same page. -/
def beqTestState : CpuState :=
  { register := { a := 0, x := 0, y := 0, stkp := 0xFD, pc := 0x8010,
                  status := 0x22 },
    ram := fun _ => 0,
    addr_abs := 0, addr_rel := 0x10, opcode := 0xF0, cycles := 2, fetched := 0 }

/-- Witness for C10: a taken same-page BEQ from 2 base cycles ends at
3 cycles with pc = 0x8020. -/
theorem beq_branch_cycles_witness :
    beqTestState.cycles < 254 ∧
    (InstructionSelector.BEQ beqTestState).1.cycles = 3 ∧
    (InstructionSelector.BEQ beqTestState).1.register.pc = 0x8020 := by
  obtain ⟨htaken, -⟩ := beq_branch_cycles beqTestState (by decide)
  obtain ⟨hpc, hcy, -⟩ := htaken (by decide)
  refine ⟨by decide, ?_, ?_⟩
  · rw [hcy]
    decide
  · rw [hpc]
    decide
